import Mathlib

/-!
Shallow embedding of the user-account backend (Api-Boilerplate): the user
controller (`loginUser`, `adminloginUser`, `forgotPassword`, `resetPassword`,
`resendOTP`, `deleteUser`, `changePassword`, `getAllUsers`), the duplicate-key
error handler, and the admin seeding routine, together with theorems about
their behaviour.

External primitives (password hashing/verification, token signing) are taken
as parameters, matching the collaborator contracts of the design document.
Persistence is modelled as explicit state passing: the user collection as a
`List User`, the OTP collection as a function from email to an optional record.
Times are naturals counting milliseconds, matching `Date.getTime()`.
-/

namespace ApiBoilerplate

/-- A user document, with the fields touched by the controller: identity,
credentials (stored hash), role, verification and soft-delete flags, the
lock flag consulted by the lock middleware, and optional profile/device
fields. -/
structure User where
  id : String
  name : String
  email : String
  password : String
  role : String
  isVerified : Bool
  isDeleted : Bool
  isLocked : Bool
  image : Option String
  profileStatus : Option String
  fcmToken : Option String
deriving DecidableEq, Repr

/-- Claims payload of a session token minted by `generateToken({id, email, role})`. -/
structure Token where
  id : String
  email : String
  role : String
deriving DecidableEq, Repr

/-- Session-token minting: the token carries exactly the id/email/role claims. -/
def generateToken (id email role : String) : Token := ⟨id, email, role⟩

/-- Claims payload of a registration-style token minted by
`generateRegisterToken({email})`. -/
structure RegisterToken where
  email : String
deriving DecidableEq, Repr

/-- Registration-token minting: the token carries exactly the email claim. -/
def generateRegisterToken (email : String) : RegisterToken := ⟨email⟩

/-- Modelled from the spec: `findUserByEmail` lives in `user.utils`, which is
not among the provided sources; per the external-interface contract it is a
plain document find keyed by email. It does not filter on the soft-delete
flag: the controller (`loginUser`, `deleteUser`) checks `isDeleted` itself
after the lookup. -/
def findUserByEmail (store : List User) (email : String) : Option User :=
  store.find? (fun u => u.email == email)

/-- Modelled from the spec: `findUserById` (from `user.utils`, not among the
provided sources) is a plain document find keyed by id. -/
def findUserById (store : List User) (id : String) : Option User :=
  store.find? (fun u => u.id == id)

/-- An OTP record: one active code per email, with an absolute expiry time. -/
structure OTPRecord where
  otp : Nat
  expiresAt : Nat
deriving DecidableEq, Repr

/-- The OTP collection, keyed by email (upsert semantics: one record per email). -/
def OTPStore : Type := String → Option OTPRecord

/-- Modelled from the spec: `saveOTP` (from `user.utils`, not among the
provided sources) upserts the record for the email with the fresh code and an
expiry a fixed TTL after now. -/
def saveOTP (store : OTPStore) (email : String) (otp now ttlMs : Nat) : OTPStore :=
  fun e => if e = email then some ⟨otp, now + ttlMs⟩ else store e

/-- Public-safe projection of a user returned by a successful login: excludes
the password hash. -/
structure UserProjection where
  id : String
  name : String
  email : String
  image : String
  role : String
  profileStatus : Option String
deriving DecidableEq, Repr

/-- Outcome of `loginUser`: a thrown `ApiError` (status code and message), the
reduced-trust unverified response (status code, success flag, message, and a
data payload holding exactly the role and a token), or the full success
response (user projection plus token). -/
inductive LoginResult where
  | apiError (statusCode : Nat) (message : String)
  | unverified (statusCode : Nat) (success : Bool) (message : String)
      (role : String) (token : Token)
  | ok (statusCode : Nat) (message : String) (user : UserProjection) (token : Token)
deriving DecidableEq, Repr

/-- Modelled from the spec: `validateUserLockStatus` (a middleware not among
the provided sources) fails before the credential check when the account is
locked; the design document does not fix its status code or message. -/
def lockedError : LoginResult := .apiError 423 "Account is locked."

/-- Update the stored push token of the user with the given id
(`user.fcmToken = fcmToken; await user.save()`). -/
def setFcmToken (store : List User) (id : String) (fcm : Option String) : List User :=
  store.map (fun u => if u.id == id then { u with fcmToken := fcm } else u)

/-- The `loginUser` controller. Looks up the user by email; fails if absent,
soft-deleted, or locked; mints a session token; on an unverified account sends
the 401 reduced-trust response carrying role and token and then saves a fresh
OTP (the stored password is never consulted in that branch); otherwise
verifies the password, failing on mismatch, and on success responds with the
public projection plus token and persists the supplied push token. Returns
the result together with the final user store and OTP store. -/
def loginUser (verify : String → String → Bool) (store : List User)
    (otpStore : OTPStore) (now newOtp ttlMs : Nat)
    (email password : String) (fcmToken : Option String) :
    LoginResult × List User × OTPStore :=
  match findUserByEmail store email with
  | none => (.apiError 404 "This account does not exist.", store, otpStore)
  | some user =>
    if user.isDeleted then
      (.apiError 404 "your account is deleted.", store, otpStore)
    else if user.isLocked then
      (lockedError, store, otpStore)
    else
      let token := generateToken user.id user.email user.role
      if !user.isVerified then
        (.unverified 401 false
          "We\x27ve sent an OTP to your email to verify your profile."
          user.role token,
         store, saveOTP otpStore email newOtp now ttlMs)
      else if !(verify user.password password) then
        (.apiError 401 "Wrong password!", store, otpStore)
      else
        (.ok 200 "Login complete!"
          ⟨user.id, user.name, user.email, user.image.getD "", user.role,
           user.profileStatus⟩ token,
         setFcmToken store user.id fcmToken, otpStore)

/-- Outcome of `adminloginUser`: a thrown `ApiError`, or the success response
with the admin projection and a token. -/
inductive AdminLoginResult where
  | apiError (statusCode : Nat) (message : String)
  | ok (statusCode : Nat) (message : String) (id name email role : String)
      (image : Option String) (token : Token)
deriving DecidableEq, Repr

/-- The `adminloginUser` controller. Looks up the user by email; fails if
absent or if the role is not admin; verifies the password, failing on
mismatch; on success responds with the admin projection plus a fresh session
token. The catch block rethrows each `ApiError` with its own status code and
message, so the thrown errors are returned unchanged. Note: unlike
`loginUser`, there is no check of the soft-delete flag. -/
def adminloginUser (verify : String → String → Bool) (store : List User)
    (email password : String) : AdminLoginResult :=
  match findUserByEmail store email with
  | none => .apiError 404 "This account does not exist."
  | some user =>
    if user.role ≠ "admin" then
      .apiError 403 "Only admins can login."
    else if !(verify user.password password) then
      .apiError 401 "Wrong password!"
    else
      .ok 200 "Login complete!" user.id user.name user.email user.role
        user.image (generateToken user.id user.email user.role)

/-- Remaining seconds reported by the cooldown error:
`Math.floor((expiresAt.getTime() - now.getTime()) / 1000)` (both times in
milliseconds; in the cooldown branch `expiresAt > now`, so truncated natural
subtraction agrees with the source). -/
def remainingSeconds (expiresAt now : Nat) : Nat := (expiresAt - now) / 1000

/-- The cooldown error message, reporting the remaining seconds. -/
def cooldownMessage (remaining : Nat) : String :=
  "You can\x27t request another OTP before " ++ toString remaining ++ " seconds."

/-- Outcome of `resendOTP`: a thrown `ApiError`, or the success response. -/
inductive ResendResult where
  | apiError (statusCode : Nat) (message : String)
  | ok (statusCode : Nat) (message : String)
deriving DecidableEq, Repr

/-- The `resendOTP` controller. `tokenEmail` is the email claim of the bearer
token, `none` when `verifyToken` throws. If an unexpired OTP record exists for
the email, fails with the cooldown error and leaves the OTP store untouched;
otherwise responds with success and saves a freshly generated OTP. Returns the
result together with the final OTP store. -/
def resendOTP (tokenEmail : Option String) (store : OTPStore)
    (now newOtp ttlMs : Nat) : ResendResult × OTPStore :=
  match tokenEmail with
  | none => (.apiError 401 "Invalid token", store)
  | some email =>
    match store email with
    | some record =>
      if now < record.expiresAt then
        (.apiError 403 (cooldownMessage (remainingSeconds record.expiresAt now)),
         store)
      else
        (.ok 200 "A new OTP has been sent to your email.",
         saveOTP store email newOtp now ttlMs)
    | none =>
      (.ok 200 "A new OTP has been sent to your email.",
       saveOTP store email newOtp now ttlMs)

/-- Outcome of `forgotPassword`: a thrown `ApiError`, or the success response
carrying a registration-style token. -/
inductive ForgotResult where
  | apiError (statusCode : Nat) (message : String)
  | ok (statusCode : Nat) (message : String) (token : RegisterToken)
deriving DecidableEq, Repr

/-- The `forgotPassword` controller. Fails when no email is supplied, when no
user record exists for it, or when an unexpired OTP record makes the cooldown
active; otherwise responds with a registration token, then sends the
reset-OTP email and saves a fresh OTP. Returns the result, the final OTP
store, and the list of reset emails dispatched (recipient and user name).
Note: the soft-delete flag of the found user is never consulted. -/
def forgotPassword (store : List User) (otpStore : OTPStore)
    (now newOtp ttlMs : Nat) (email : String) :
    ForgotResult × OTPStore × List (String × String) :=
  if email = "" then
    (.apiError 400 "Please provide an email.", otpStore, [])
  else
    match findUserByEmail store email with
    | none => (.apiError 404 "This account does not exist.", otpStore, [])
    | some user =>
      match otpStore email with
      | some record =>
        if now < record.expiresAt then
          (.apiError 403 (cooldownMessage (remainingSeconds record.expiresAt now)),
           otpStore, [])
        else
          (.ok 200 "OTP sent to your email. Please check!" ⟨email⟩,
           saveOTP otpStore email newOtp now ttlMs, [(email, user.name)])
      | none =>
        (.ok 200 "OTP sent to your email. Please check!" ⟨email⟩,
         saveOTP otpStore email newOtp now ttlMs, [(email, user.name)])

/-- Claims payload of a decoded bearer token in `resetPassword`: an email and
an optional role claim (registration tokens carry no role). -/
structure Claims where
  id : String
  email : String
  role : Option String
deriving DecidableEq, Repr

/-- An observable effect of a handler, in the order it is performed: a
response sent to the client, an error raised (which ends processing), or a
password hash persisted onto the user record with the given email. -/
inductive Effect where
  | response (statusCode : Nat) (success : Bool) (message : String)
  | sendErrorResponse
  | raise (statusCode : Nat) (message : String)
  | persistPassword (email : String) (newHash : String)
deriving DecidableEq, Repr

/-- Overwrite the stored password hash of the user with the given email
(`user.password = newHash; await user.save()`). -/
def setPassword (store : List User) (email newHash : String) : List User :=
  store.map (fun u => if u.email == email then { u with password := newHash } else u)

/-- A decoded role claim is missing in the JavaScript truthiness sense
(`!decoded.role`): absent or the empty string. -/
def roleMissing : Option String → Bool
  | none => true
  | some r => r = ""

/-- The `resetPassword` controller. `decoded` is the verified bearer token's
claims, `none` when `verifyToken` throws (in which case the error is sent via
`sendError`). Requires a role claim and a password (JavaScript truthiness:
the empty string fails the check). The success response is sent BEFORE the
user lookup: when no user exists for the token's email, the 404 is raised
only after the response. Returns the effect trace in order, together with the
final user store. -/
def resetPassword (hash : String → String) (store : List User)
    (decoded : Option Claims) (password : String) : List Effect × List User :=
  match decoded with
  | none => ([.sendErrorResponse], store)
  | some claims =>
    if roleMissing claims.role then
      ([.raise 401 "Invalid token. Please try again."], store)
    else if password = "" then
      ([.raise 400 "Please provide  password "], store)
    else
      match findUserByEmail store claims.email with
      | none =>
        ([.response 200 true "Password reset successfully.",
          .raise 404 "User not found. Are you attempting something sneaky?"],
         store)
      | some _ =>
        ([.response 200 true "Password reset successfully.",
          .persistPassword claims.email (hash password)],
         setPassword store claims.email (hash password))

/-- Outcome of `deleteUser`: a thrown `ApiError`, or the success response. -/
inductive DeleteResult where
  | apiError (statusCode : Nat) (message : String)
  | ok (statusCode : Nat) (message : String)
deriving DecidableEq, Repr

/-- Modelled from the spec: `userDelete` (from `user.service`, not among the
provided sources) soft-deletes — deletion flips `isDeleted` rather than
removing the document. -/
def userDelete (store : List User) (id : String) : List User :=
  store.map (fun u => if u.id == id then { u with isDeleted := true } else u)

/-- The `deleteUser` controller. Looks up the target by id; fails if absent,
if already soft-deleted, or if the caller is not the account owner acting
with the admin role; otherwise soft-deletes and responds with success. The
catch block rethrows each `ApiError` with its own status code and message.
Returns the result together with the final user store. -/
def deleteUser (store : List User) (id authId authRole : String) :
    DeleteResult × List User :=
  match findUserById store id with
  | none => (.apiError 404 "User not found.", store)
  | some deleteableuser =>
    if deleteableuser.isDeleted then
      (.apiError 404 "This account is already deleted.", store)
    else if authId != id || authRole != "admin" then
      (.apiError 403 "You cannot delete this account. Please contact support",
       store)
    else
      (.ok 200 "Account deleted successfully", userDelete store id)

/-- The `changePassword` controller. Requires both passwords (JavaScript
truthiness: the empty string fails the check, and the plain `Error` is
rewrapped by the catch block as a 500 `ApiError`); looks up the
authenticated caller by email; verifies the old password against the stored
hash, failing with 401 on mismatch; on success hashes the new password and
persists it BEFORE the success response is sent. Returns the effect trace in
order, together with the final user store. -/
def changePassword (verify : String → String → Bool) (hash : String → String)
    (store : List User) (email oldPassword newPassword : String) :
    List Effect × List User :=
  if oldPassword = "" || newPassword = "" then
    ([.raise 500 "Please provide both old password and new password."], store)
  else
    match findUserByEmail store email with
    | none => ([.raise 500 "User not found."], store)
    | some user =>
      if !(verify user.password oldPassword) then
        ([.raise 401 "Old password is incorrect."], store)
      else
        ([.persistPassword email (hash newPassword),
          .response 200 true "You have successfully changed your password."],
         setPassword store email (hash newPassword))

/-- Characters the JavaScript regex dot does not match: line terminators. -/
def jsDotNoMatch (c : Char) : Bool :=
  c = '\n' || c = '\r' || c = Char.ofNat 0x2028 || c = Char.ofNat 0x2029

/-- Attempt of the regex tail at a position right after an opening quote:
lazily take characters (the dot matches no line terminator) up to a closing
quote, yielding the captured group; fail when the string ends or a line
terminator intervenes first. -/
def lazyQuoteCapture : List Char → Option (List Char)
  | [] => none
  | c :: rest =>
    if c = '"' then some []
    else if jsDotNoMatch c then none
    else (lazyQuoteCapture rest).map (fun cs => c :: cs)

/-- First match of the regex over the character list: the engine tries each
start position in order; a match must start at a double quote, and a failed
attempt resumes scanning after that quote. -/
def firstQuotedAux : List Char → Option (List Char)
  | [] => none
  | c :: rest =>
    if c = '"' then
      match lazyQuoteCapture rest with
      | some captured => some captured
      | none => firstQuotedAux rest
    else firstQuotedAux rest

/-- The capture group of the first match of the regex against the message:
the first double-quoted substring, when one exists. -/
def firstQuoted (s : String) : Option String :=
  (firstQuotedAux s.data).map (fun cs => String.mk cs)

/-- The structured error response produced by the error handlers. -/
structure IErrorResponse where
  success : Bool
  statusCode : Nat
  errorType : String
  errorMessage : String
deriving DecidableEq, Repr

/-- The duplicate-key error handler (`handleDuplicateError.ts`): matches the
message against the quoted-substring regex and builds the 409 response from
the capture group. `matches![1]` is a non-null assertion: when the regex does
not match, the handler throws a runtime `TypeError` instead of returning a
response, modelled here as `none`. -/
def handlerDuplicateError (message : String) : Option IErrorResponse :=
  (firstQuoted message).map (fun field =>
    { success := false, statusCode := 409, errorType := "Duplicate Error",
      errorMessage := field ++ " is already exists!" })

/-- The pagination block of the `getAllUsers` response. -/
structure PaginationOut where
  totalPage : Nat
  currentPage : Nat
  prevPage : Nat
  nextPage : Nat
  limit : Nat
  totalItem : Nat
deriving DecidableEq, Repr

/-- Modelled from the spec: `getUserList` (from `user.service`, not among the
provided sources) returns the requested page slice of the matching users
together with the total count and the total number of pages
(`ceil(totalCount / limit)`, per the documented 25-users/limit-10 example
giving 3 pages). -/
def getUserList (matching : List User) (skip limit : Nat) :
    List User × Nat × Nat :=
  ((matching.drop skip).take limit, matching.length,
   (matching.length + limit - 1) / limit)

/-- Outcome of `getAllUsers` (after the token and admin-existence checks,
which precede and are independent of pagination): the distinct no-content
response for an empty page, or the success response with its pagination
block. -/
inductive UsersListResult where
  | noContent (statusCode : Nat) (message : String)
  | ok (statusCode : Nat) (message : String) (pagination : PaginationOut)
deriving DecidableEq, Repr

/-- Pagination logic of the `getAllUsers` controller: `skip = (page-1)*limit`;
`prevPage = page > 1 ? page - 1 : null`; `nextPage = page < totalPages ?
page + 1 : null`; an empty page yields the no-content response; otherwise the
internal nulls are rendered as the 1-sentinel (`prevPage ?? 1`,
`nextPage ?? 1`) in the response's pagination block. -/
def getAllUsers (matching : List User) (page limit : Nat) : UsersListResult :=
  let skip := (page - 1) * limit
  match getUserList matching skip limit with
  | (users, totalUsers, totalPages) =>
    let prevPage : Option Nat := if page > 1 then some (page - 1) else none
    let nextPage : Option Nat := if page < totalPages then some (page + 1) else none
    if users.length = 0 then
      .noContent 204 "No user found based on your search."
    else
      .ok 200 "User list retrieved successfully"
        { totalPage := totalPages, currentPage := page,
          prevPage := prevPage.getD 1, nextPage := nextPage.getD 1,
          limit := limit, totalItem := totalUsers }

/-- The literal seed data of `DB/index.ts`. -/
structure SeedAdminData where
  name : String
  email : String
  password : String
  role : String
  isDeleted : Bool
deriving DecidableEq, Repr

/-- The first seed admin account. -/
def admin : SeedAdminData :=
  ⟨"Bienvenue", "showershareny@gmail.com", "1qazxsw2", "admin", false⟩

/-- The second seed admin account. -/
def admin2 : SeedAdminData :=
  ⟨"admin", "admin@gmail.com", "1qazxsw2", "admin", false⟩

/-- The user document created for a seed admin: the seed data with the
password hashed. The database assigns a fresh id and schema defaults for the
remaining fields; the seed logic never reads them, so the email stands in for
the id and the defaults are fixed arbitrarily. -/
def seedAdminUser (hash : String → String) (a : SeedAdminData) : User :=
  { id := a.email, name := a.name, email := a.email,
    password := hash a.password, role := a.role, isVerified := false,
    isDeleted := a.isDeleted, isLocked := false, image := none,
    profileStatus := none, fcmToken := none }

/-- One iteration of the seeding loop: `findOne({email})`, and create the
admin user only when no record with that email exists. -/
def seedOneAdmin (hash : String → String) (store : List User)
    (a : SeedAdminData) : List User :=
  if store.any (fun u => u.email == a.email) then store
  else store ++ [seedAdminUser hash a]

/-- The `seedSuperAdmin` startup routine: the seeding loop over the two seed
admin accounts. -/
def seedSuperAdmin (hash : String → String) (store : List User) : List User :=
  [admin, admin2].foldl (seedOneAdmin hash) store

/-! Concrete inputs used by the witnesses and counterexamples. -/

/-- An OTP store holding no records. -/
def emptyOtpStore : OTPStore := fun _ => none

/-- A live, unverified user with an empty stored password. -/
def annUser : User :=
  { id := "u1", name := "Ann", email := "ann@x.com", password := "",
    role := "user", isVerified := false, isDeleted := false, isLocked := false,
    image := none, profileStatus := none, fcmToken := none }

/-- A soft-deleted admin whose stored hash verifies against the supplied
password under the sample verifier. -/
def deletedAdmin : User :=
  { id := "a1", name := "Mallory", email := "deleted-admin@x.com",
    password := "hunter2", role := "admin", isVerified := true,
    isDeleted := true, isLocked := false, image := none,
    profileStatus := none, fcmToken := none }

/-- A soft-deleted, verified ordinary user. -/
def deletedUser : User :=
  { id := "u9", name := "Dora", email := "dora@x.com", password := "h",
    role := "user", isVerified := true, isDeleted := true, isLocked := false,
    image := none, profileStatus := none, fcmToken := none }

/-- A live, verified user. -/
def bobUser : User :=
  { id := "u2", name := "Bob", email := "bob@x.com", password := "pw",
    role := "user", isVerified := true, isDeleted := false, isLocked := false,
    image := none, profileStatus := none, fcmToken := none }

/-- An OTP store holding one record for Bob, issued at time 0 with a
60-second TTL. -/
def bobOtpStore : OTPStore :=
  fun e => if e = "bob@x.com" then some ⟨222222, 60000⟩ else none

/-- A sample verifier for the password-hash primitive: the stored hash
verifies exactly against the matching plaintext. -/
def sampleVerify : String → String → Bool := fun h p => h == p

/-! Theorems. -/

/-- C3: for every `loginUser` request whose looked-up user exists, is not
soft-deleted, is not locked, and is unverified, the response is the distinct
401 reduced-trust response whose data holds exactly the role and the minted
token, the OTP store gains a fresh record, and the outcome is the same for
every verifier and every stored password: the stored hash is never
consulted. -/
theorem loginUser_unverified_branch (verify : String → String → Bool)
    (store : List User) (otpStore : OTPStore) (now newOtp ttlMs : Nat)
    (email password : String) (fcmToken : Option String) (u : User)
    (hfind : findUserByEmail store email = some u)
    (hdel : u.isDeleted = false) (hlock : u.isLocked = false)
    (hver : u.isVerified = false) :
    loginUser verify store otpStore now newOtp ttlMs email password fcmToken =
      (.unverified 401 false
        "We\x27ve sent an OTP to your email to verify your profile."
        u.role (generateToken u.id u.email u.role),
       store, saveOTP otpStore email newOtp now ttlMs) := by
  simp [loginUser, hfind, hdel, hlock, hver]

/-- Witness for C3: a concrete unverified user with a garbage (empty) stored
password still lands in the unverified branch. -/
theorem loginUser_unverified_branch_witness :
    findUserByEmail [annUser] "ann@x.com" = some annUser ∧
    annUser.password = "" ∧
    loginUser sampleVerify [annUser] emptyOtpStore 0 111111 60000
        "ann@x.com" "whatever" none =
      (.unverified 401 false
        "We\x27ve sent an OTP to your email to verify your profile."
        annUser.role (generateToken annUser.id annUser.email annUser.role),
       [annUser], saveOTP emptyOtpStore "ann@x.com" 111111 0 60000) :=
  ⟨by decide, rfl,
   loginUser_unverified_branch sampleVerify [annUser] emptyOtpStore 0 111111
     60000 "ann@x.com" "whatever" none annUser (by decide) rfl rfl rfl⟩

/-- C4: for every `resendOTP` request whose stored OTP record is unexpired,
the call fails with the 403 cooldown error reporting the remaining seconds
(floor of the millisecond difference over 1000) and the OTP store is returned
unchanged; the reported value is at most the original TTL in seconds and is
antitone in the current time. -/
theorem resendOTP_cooldown (store : OTPStore) (email : String)
    (now later newOtp ttlMs issuedAt : Nat) (record : OTPRecord)
    (hfind : store email = some record)
    (hcool : now < record.expiresAt)
    (hexp : record.expiresAt = issuedAt + ttlMs)
    (hissued : issuedAt ≤ now)
    (hlater : now ≤ later) :
    resendOTP (some email) store now newOtp ttlMs =
      (.apiError 403 (cooldownMessage (remainingSeconds record.expiresAt now)),
       store)
    ∧ remainingSeconds record.expiresAt now ≤ ttlMs / 1000
    ∧ remainingSeconds record.expiresAt later ≤ remainingSeconds record.expiresAt now := by
  refine ⟨by simp [resendOTP, hfind, hcool], ?_, ?_⟩
  · exact Nat.div_le_div_right (by omega)
  · exact Nat.div_le_div_right (Nat.sub_le_sub_left hlater _)

/-- Witness for C4: Bob's OTP was issued at time 0 with a 60000 ms TTL; a
resend at 30000 ms fails with 30 remaining seconds, the store is untouched,
and the bound and antitonicity hold at 45000 ms. -/
theorem resendOTP_cooldown_witness :
    resendOTP (some "bob@x.com") bobOtpStore 30000 333333 60000 =
      (.apiError 403 (cooldownMessage (remainingSeconds 60000 30000)),
       bobOtpStore)
    ∧ remainingSeconds 60000 30000 ≤ 60000 / 1000
    ∧ remainingSeconds 60000 45000 ≤ remainingSeconds 60000 30000 :=
  resendOTP_cooldown bobOtpStore "bob@x.com" 30000 45000 333333 60000 0
    ⟨222222, 60000⟩ rfl (by decide) (by decide) (by decide) (by decide)

/-- C5: for every `resetPassword` request with a decoded token carrying a
role claim and a non-empty password, when no user exists for the token's
email the handler first sends the success response and only then raises the
404, and the user store is returned unchanged. -/
theorem resetPassword_missing_user_post_response (hash : String → String)
    (store : List User) (claims : Claims) (password : String)
    (hrole : roleMissing claims.role = false)
    (hpw : password ≠ "")
    (hfind : findUserByEmail store claims.email = none) :
    resetPassword hash store (some claims) password =
      ([.response 200 true "Password reset successfully.",
        .raise 404 "User not found. Are you attempting something sneaky?"],
       store) := by
  simp [resetPassword, hrole, hpw, hfind]

/-- Witness for C5: a concrete token for an absent email with role claim
`user` and password `newpass`. -/
theorem resetPassword_missing_user_post_response_witness :
    resetPassword id [] (some ⟨"u7", "ghost@x.com", some "user"⟩) "newpass" =
      ([.response 200 true "Password reset successfully.",
        .raise 404 "User not found. Are you attempting something sneaky?"],
       []) :=
  resetPassword_missing_user_post_response id [] ⟨"u7", "ghost@x.com", some "user"⟩
    "newpass" rfl (by decide) rfl

/-- C6: for every `deleteUser` request whose target is already soft-deleted,
the operation fails with the 404 already-deleted error and the user store is
returned unchanged. -/
theorem deleteUser_already_deleted (store : List User)
    (id authId authRole : String) (u : User)
    (hfind : findUserById store id = some u)
    (hdel : u.isDeleted = true) :
    deleteUser store id authId authRole =
      (.apiError 404 "This account is already deleted.", store) := by
  simp [deleteUser, hfind, hdel]

/-- Witness for C6: deleting the already-deleted user Dora fails and changes
nothing, even for an owner acting as admin. -/
theorem deleteUser_already_deleted_witness :
    deleteUser [deletedUser] "u9" "u9" "admin" =
      (.apiError 404 "This account is already deleted.", [deletedUser]) :=
  deleteUser_already_deleted [deletedUser] "u9" "u9" "admin" deletedUser
    (by decide) rfl

/-- C7: for every `changePassword` request with both passwords supplied and
an existing caller, a failing old-password verification yields the 401
unauthorized error with the store unchanged, and a succeeding one persists
the hash of the new password before the success response is sent. -/
theorem changePassword_old_password_gate (verify : String → String → Bool)
    (hash : String → String) (store : List User)
    (email oldPassword newPassword : String) (u : User)
    (hold : oldPassword ≠ "") (hnew : newPassword ≠ "")
    (hfind : findUserByEmail store email = some u) :
    (verify u.password oldPassword = false →
      changePassword verify hash store email oldPassword newPassword =
        ([.raise 401 "Old password is incorrect."], store))
    ∧ (verify u.password oldPassword = true →
      changePassword verify hash store email oldPassword newPassword =
        ([.persistPassword email (hash newPassword),
          .response 200 true "You have successfully changed your password."],
         setPassword store email (hash newPassword))) := by
  constructor <;> intro hv <;> simp [changePassword, hold, hnew, hfind, hv]

/-- Witness for C7: Bob's stored hash verifies only against `pw`; the wrong
old password fails with 401 and no change, the right one persists before
responding. -/
theorem changePassword_old_password_gate_witness :
    changePassword sampleVerify id [bobUser] "bob@x.com" "wrong" "next" =
      ([.raise 401 "Old password is incorrect."], [bobUser])
    ∧ changePassword sampleVerify id [bobUser] "bob@x.com" "pw" "next" =
      ([.persistPassword "bob@x.com" (id "next"),
        .response 200 true "You have successfully changed your password."],
       setPassword [bobUser] "bob@x.com" (id "next")) :=
  ⟨(changePassword_old_password_gate sampleVerify id [bobUser] "bob@x.com"
      "wrong" "next" bobUser (by decide) (by decide) (by decide)).1 (by decide),
   (changePassword_old_password_gate sampleVerify id [bobUser] "bob@x.com"
      "pw" "next" bobUser (by decide) (by decide) (by decide)).2 (by decide)⟩

/-- C9: for every 25-user matching collection, `getAllUsers` at page 1 with
limit 10 responds with totalPage 3, nextPage 2, prevPage rendered as the
1-sentinel, and totalItem 25. -/
theorem getAllUsers_pagination_25_page1_limit10 (matching : List User)
    (hcount : matching.length = 25) :
    getAllUsers matching 1 10 =
      .ok 200 "User list retrieved successfully"
        { totalPage := 3, currentPage := 1, prevPage := 1, nextPage := 2,
          limit := 10, totalItem := 25 } := by
  simp [getAllUsers, getUserList, hcount]

/-- Witness for C9: a concrete collection of 25 users. -/
theorem getAllUsers_pagination_25_page1_limit10_witness :
    getAllUsers (List.replicate 25 bobUser) 1 10 =
      .ok 200 "User list retrieved successfully"
        { totalPage := 3, currentPage := 1, prevPage := 1, nextPage := 2,
          limit := 10, totalItem := 25 } :=
  getAllUsers_pagination_25_page1_limit10 (List.replicate 25 bobUser) (by simp)

/-- The seeding loop step leaves a store that already holds the seed email
unchanged. -/
theorem seedOneAdmin_exists_eq (hash : String → String) (store : List User)
    (a : SeedAdminData) (h : store.any (fun u => u.email == a.email) = true) :
    seedOneAdmin hash store a = store := by
  simp [seedOneAdmin, h]

/-- After the seeding loop step for a seed account, its email is present. -/
theorem any_seedOneAdmin_self (hash : String → String) (store : List User)
    (a : SeedAdminData) :
    (seedOneAdmin hash store a).any (fun u => u.email == a.email) = true := by
  by_cases h : store.any (fun u => u.email == a.email) = true
  · simp [seedOneAdmin, h]
  · simp [seedOneAdmin, h, seedAdminUser]

/-- The seeding loop step only ever appends, so it preserves any existing
membership fact. -/
theorem any_seedOneAdmin_mono (hash : String → String) (store : List User)
    (a : SeedAdminData) (p : User → Bool) (h : store.any p = true) :
    (seedOneAdmin hash store a).any p = true := by
  by_cases hex : store.any (fun u => u.email == a.email) = true
  · simpa [seedOneAdmin, hex] using h
  · simp [seedOneAdmin, hex, h]

/-- C10: `seedSuperAdmin` is idempotent — a second run finds both seed
emails already present, creates nothing, and leaves the user store exactly as
the first run left it. -/
theorem seedSuperAdmin_idempotent (hash : String → String) (store : List User) :
    seedSuperAdmin hash (seedSuperAdmin hash store) = seedSuperAdmin hash store := by
  have hs : seedSuperAdmin hash store =
      seedOneAdmin hash (seedOneAdmin hash store admin) admin2 := rfl
  have h1 : (seedSuperAdmin hash store).any (fun u => u.email == admin.email) = true := by
    rw [hs]
    exact any_seedOneAdmin_mono hash _ admin2 _ (any_seedOneAdmin_self hash store admin)
  have h2 : (seedSuperAdmin hash store).any (fun u => u.email == admin2.email) = true := by
    rw [hs]
    exact any_seedOneAdmin_self hash (seedOneAdmin hash store admin) admin2
  calc seedSuperAdmin hash (seedSuperAdmin hash store)
      = seedOneAdmin hash (seedOneAdmin hash (seedSuperAdmin hash store) admin) admin2 := rfl
    _ = seedOneAdmin hash (seedSuperAdmin hash store) admin2 := by
        rw [seedOneAdmin_exists_eq hash _ admin h1]
    _ = seedSuperAdmin hash store := seedOneAdmin_exists_eq hash _ admin2 h2

/-- C1 counterexample: `adminloginUser` never consults the soft-delete flag,
so a soft-deleted admin presenting the correct password receives the full
success response including a session token. -/
theorem adminloginUser_deleted_counterexample :
    deletedAdmin.isDeleted = true ∧
    adminloginUser sampleVerify [deletedAdmin] "deleted-admin@x.com" "hunter2" =
      .ok 200 "Login complete!" "a1" "Mallory" "deleted-admin@x.com" "admin"
        none (generateToken "a1" "deleted-admin@x.com" "admin") := by
  exact ⟨rfl, by decide⟩

/-- C1 (amended): for every user record with `isDeleted = true`, `loginUser`
fails with the 404 deleted-account error — no token, and both stores are
returned unchanged — for every verifier; `adminloginUser` performs no such
check. -/
theorem loginUser_deleted_fails (verify : String → String → Bool)
    (store : List User) (otpStore : OTPStore) (now newOtp ttlMs : Nat)
    (email password : String) (fcmToken : Option String) (u : User)
    (hfind : findUserByEmail store email = some u)
    (hdel : u.isDeleted = true) :
    loginUser verify store otpStore now newOtp ttlMs email password fcmToken =
      (.apiError 404 "your account is deleted.", store, otpStore) := by
  simp [loginUser, hfind, hdel]

/-- Witness for C1 (amended): the soft-deleted user Dora cannot log in even
with the correct password. -/
theorem loginUser_deleted_fails_witness :
    loginUser sampleVerify [deletedUser] emptyOtpStore 0 111111 60000
        "dora@x.com" "h" none =
      (.apiError 404 "your account is deleted.", [deletedUser], emptyOtpStore) :=
  loginUser_deleted_fails sampleVerify [deletedUser] emptyOtpStore 0 111111
    60000 "dora@x.com" "h" none deletedUser (by decide) rfl

/-- C2 counterexample: `forgotPassword` never consults the soft-delete flag:
for the soft-deleted user Dora with no pending OTP record, the call succeeds
with a registration token, a fresh OTP is stored for her email, and a reset
email is dispatched. -/
theorem forgotPassword_deleted_counterexample :
    deletedUser.isDeleted = true ∧
    forgotPassword [deletedUser] emptyOtpStore 1000 123456 60000 "dora@x.com" =
      (.ok 200 "OTP sent to your email. Please check!" ⟨"dora@x.com"⟩,
       saveOTP emptyOtpStore "dora@x.com" 123456 1000 60000,
       [("dora@x.com", "Dora")]) ∧
    (forgotPassword [deletedUser] emptyOtpStore 1000 123456 60000
        "dora@x.com").2.1 "dora@x.com" = some ⟨123456, 61000⟩ := by
  exact ⟨rfl, rfl, rfl⟩

/-- C2 (amended): `forgotPassword` requires an existing user but does not
check the soft-delete flag — for a soft-deleted user with a supplied email
and no unexpired OTP record, the operation succeeds exactly as for a live
user: a registration-style token is returned, a fresh OTP is stored, and a
reset email is dispatched. -/
theorem forgotPassword_ignores_isDeleted (store : List User)
    (otpStore : OTPStore) (now newOtp ttlMs : Nat) (email : String) (u : User)
    (hemail : email ≠ "")
    (hfind : findUserByEmail store email = some u)
    (hdel : u.isDeleted = true)
    (hcool : ∀ record, otpStore email = some record → record.expiresAt ≤ now) :
    forgotPassword store otpStore now newOtp ttlMs email =
      (.ok 200 "OTP sent to your email. Please check!" ⟨email⟩,
       saveOTP otpStore email newOtp now ttlMs, [(email, u.name)]) := by
  cases hrec : otpStore email with
  | none => simp [forgotPassword, hemail, hfind, hrec]
  | some record =>
    have hle := hcool record hrec
    simp [forgotPassword, hemail, hfind, hrec,
      show ¬(now < record.expiresAt) by omega]

/-- Witness for C2 (amended): the concrete call of the counterexample, via
the amended theorem. -/
theorem forgotPassword_ignores_isDeleted_witness :
    forgotPassword [deletedUser] emptyOtpStore 1000 123456 60000 "dora@x.com" =
      (.ok 200 "OTP sent to your email. Please check!" ⟨"dora@x.com"⟩,
       saveOTP emptyOtpStore "dora@x.com" 123456 1000 60000,
       [("dora@x.com", deletedUser.name)]) :=
  forgotPassword_ignores_isDeleted [deletedUser] emptyOtpStore 1000 123456
    60000 "dora@x.com" deletedUser (by decide) (by decide) rfl
    (fun record h => by simp [emptyOtpStore] at h)

/-- C8 counterexample: on a message with no double-quoted substring the
regex does not match, so the non-null assertion `matches![1]` makes the
handler throw a runtime `TypeError` (modelled as `none`) instead of
returning the 409 response — the claimed behaviour does not hold for every
input error message. -/
theorem handlerDuplicateError_no_quote_counterexample :
    handlerDuplicateError "E11000 duplicate key error collection" = none := by
  rfl

/-- The regex tail starting right after an opening quote captures exactly the
quote-free, line-terminator-free prefix closed by the next quote. -/
theorem lazyQuoteCapture_closed (f b : List Char)
    (hf : ∀ c ∈ f, ¬(c = '"') ∧ jsDotNoMatch c = false) :
    lazyQuoteCapture (f ++ '"' :: b) = some f := by
  induction f with
  | nil => simp [lazyQuoteCapture]
  | cons c cs ih =>
    have hc := hf c (List.mem_cons_self c cs)
    simp [lazyQuoteCapture, hc.1, hc.2,
      ih (fun x hx => hf x (List.mem_cons_of_mem c hx))]

/-- Scanning a quote-free prefix, the first regex match is the quoted
substring that follows it. -/
theorem firstQuotedAux_closed (a f b : List Char)
    (ha : ∀ c ∈ a, ¬(c = '"'))
    (hf : ∀ c ∈ f, ¬(c = '"') ∧ jsDotNoMatch c = false) :
    firstQuotedAux (a ++ '"' :: (f ++ '"' :: b)) = some f := by
  induction a with
  | nil => simp [firstQuotedAux, lazyQuoteCapture_closed f b hf]
  | cons c cs ih =>
    have hc := ha c (List.mem_cons_self c cs)
    simp [firstQuotedAux, hc,
      ih (fun x hx => ha x (List.mem_cons_of_mem c hx))]

/-- C8 (amended): for every error message that contains a double-quoted
substring — a quote-free prefix, then the first quoted run, free of quotes
and line terminators — the handler returns success `false`, status 409, and
the message naming that first double-quoted substring as the offending
field. -/
theorem handlerDuplicateError_quoted_field (msg f : String) (a b : List Char)
    (hmsg : msg.data = a ++ '"' :: (f.data ++ '"' :: b))
    (ha : ∀ c ∈ a, ¬(c = '"'))
    (hf : ∀ c ∈ f.data, ¬(c = '"') ∧ jsDotNoMatch c = false) :
    handlerDuplicateError msg =
      some { success := false, statusCode := 409,
             errorType := "Duplicate Error",
             errorMessage := f ++ " is already exists!" } := by
  simp [handlerDuplicateError, firstQuoted, hmsg,
    firstQuotedAux_closed a f.data b ha hf]

/-- Witness for C8 (amended): a representative duplicate-key message whose
first quoted substring is the email field. -/
theorem handlerDuplicateError_quoted_field_witness :
    handlerDuplicateError "index: \"email\" dup key" =
      some { success := false, statusCode := 409,
             errorType := "Duplicate Error",
             errorMessage := "email" ++ " is already exists!" } :=
  handlerDuplicateError_quoted_field "index: \"email\" dup key" "email"
    "index: ".data " dup key".data (by decide) (by decide) (by decide)

end ApiBoilerplate
